import Mathlib

set_option autoImplicit false

/-!
Shallow embedding of the sciencemonkey/mobu core: the monkey factory
(`src/sciencemonkey/monkeybusinessfactory.py`) and the Jupyter session
protocol client (`src/mobu/jupyterclient.py`).  HTTP traffic is modelled by
explicit `Response` values supplied to each operation in the order the code
issues its requests; exceptions become `Except` errors; the unbounded loops
(`spawn_lab`'s progress poll, `run_python`'s receive loop) consume a finite
trace and report `pending` when the trace is exhausted while the loop would
keep going.
-/

/-! Data model: `sciencemonkey/user.py` user and the business variants of
`sciencemonkey/business.py` as a closed kind. -/

structure SMUser where
  username : String
  uidnumber : Nat
  deriving Repr, DecidableEq

inductive BusinessKind where
  | base
  | jupyterLoginLoop
  | jupyterPythonLoop
  deriving Repr, DecidableEq

structure Monkey where
  user : SMUser
  business : BusinessKind
  deriving Repr, DecidableEq

/-- Creation request body: `body["username"]`, `body["uidnumber"]`,
`body.get("business", None)`.  A missing key is `none`. -/
structure CreateBody where
  username : Option String
  uidnumber : Option Nat
  business : Option String
  deriving Repr, DecidableEq

inductive CreateError where
  | invalidRequest
  | unknownBusiness (b : String)
  deriving Repr, DecidableEq

/-- Embedding of `MonkeyBusinessFactory.create` (monkeybusinessfactory.py,
lines 20-37).  `body["username"]` / `body["uidnumber"]` raise `KeyError` when
the key is absent (`invalidRequest`); the business tag is dispatched by the
`if/elif` chain, with `ValueError` (`unknownBusiness`) in the `else` arm. -/
def MonkeyBusinessFactory.create (body : CreateBody) : Except CreateError Monkey :=
  match body.username with
  | none => .error .invalidRequest
  | some username =>
    match body.uidnumber with
    | none => .error .invalidRequest
    | some uidnumber =>
      let u : SMUser := ⟨username, uidnumber⟩
      match body.business with
      | none => .ok ⟨u, .base⟩
      | some b =>
        if b = "JupyterLoginLoop" then .ok ⟨u, .jupyterLoginLoop⟩
        else if b = "JupyterPythonLoop" then .ok ⟨u, .jupyterPythonLoop⟩
        else .error (.unknownBusiness b)

/-- Modelled from the spec: the Registry (username → Monkey) lives in the
HTTP handler layer (`mobu/handlers/external/user.py`), which is not among the
sources; per the spec `create` "builds the Identity, constructs the Monkey
with the selected loop bound to it, registers it", so a successful creation
inserts the Monkey and a failed one leaves the Registry untouched. -/
def createInRegistry (reg : List (String × Monkey)) (body : CreateBody) :
    Except CreateError (List (String × Monkey) × Monkey) :=
  match MonkeyBusinessFactory.create body with
  | .error e => .error e
  | .ok m => .ok ((m.user.username, m) :: reg, m)

/-- Registry contents after a creation attempt: unchanged when `create`
fails, extended with the new Monkey when it succeeds. -/
def registryAfter (reg : List (String × Monkey)) (body : CreateBody) :
    List (String × Monkey) :=
  match createInRegistry reg body with
  | .error _ => reg
  | .ok (reg2, _) => reg2

/-- C5: a request with both `username` and `uidnumber` present selects the
loop variant by exact match on the optional `business` field: absent gives
the Base loop, "JupyterLoginLoop" the login cycle, "JupyterPythonLoop" the
execution cycle, and any other non-empty value fails with `UnknownBusiness`
leaving the Registry unchanged. -/
theorem create_business_selection (uname : String) (uid : Nat) (b : String)
    (hb1 : b ≠ "JupyterLoginLoop") (hb2 : b ≠ "JupyterPythonLoop") :
    MonkeyBusinessFactory.create ⟨some uname, some uid, none⟩ =
      .ok ⟨⟨uname, uid⟩, .base⟩ ∧
    MonkeyBusinessFactory.create ⟨some uname, some uid, some "JupyterLoginLoop"⟩ =
      .ok ⟨⟨uname, uid⟩, .jupyterLoginLoop⟩ ∧
    MonkeyBusinessFactory.create ⟨some uname, some uid, some "JupyterPythonLoop"⟩ =
      .ok ⟨⟨uname, uid⟩, .jupyterPythonLoop⟩ ∧
    MonkeyBusinessFactory.create ⟨some uname, some uid, some b⟩ =
      .error (.unknownBusiness b) ∧
    ∀ reg, registryAfter reg ⟨some uname, some uid, some b⟩ = reg := by
  refine ⟨rfl, rfl, rfl, ?_, ?_⟩
  · simp [MonkeyBusinessFactory.create, hb1, hb2]
  · intro reg
    simp [registryAfter, createInRegistry, MonkeyBusinessFactory.create, hb1, hb2]

/-- Witness for C5 at a concrete request. -/
theorem create_business_selection_witness :
    MonkeyBusinessFactory.create ⟨some "alice", some 1000, some "Nonsense"⟩ =
      .error (.unknownBusiness "Nonsense") ∧
    registryAfter [] ⟨some "alice", some 1000, some "Nonsense"⟩ = [] := by
  have h := create_business_selection "alice" 1000 "Nonsense"
    (by decide) (by decide)
  exact ⟨h.2.2.2.1, h.2.2.2.2 []⟩

/-- C6: a request missing `username` or missing `uidnumber` fails with
`InvalidRequest` and registers nothing. -/
theorem create_missing_field (body : CreateBody)
    (h : body.username = none ∨ body.uidnumber = none) :
    MonkeyBusinessFactory.create body = .error .invalidRequest ∧
    ∀ reg, registryAfter reg body = reg := by
  obtain ⟨u, n, b⟩ := body
  have hcreate : MonkeyBusinessFactory.create ⟨u, n, b⟩ = .error .invalidRequest := by
    rcases h with h | h
    · simp only at h
      subst h
      rfl
    · simp only at h
      subst h
      cases u <;> rfl
  refine ⟨hcreate, ?_⟩
  intro reg
  simp [registryAfter, createInRegistry, hcreate]

/-- Witness for C6 at concrete requests. -/
theorem create_missing_field_witness :
    MonkeyBusinessFactory.create ⟨none, some 1000, none⟩ = .error .invalidRequest ∧
    MonkeyBusinessFactory.create ⟨some "bob", none, none⟩ = .error .invalidRequest := by
  exact ⟨(create_missing_field ⟨none, some 1000, none⟩ (Or.inl rfl)).1,
    (create_missing_field ⟨some "bob", none, none⟩ (Or.inr rfl)).1⟩

/-- C9: an explicitly empty `business` string is not the Base loop: it takes
the unknown-variant branch, and the Base loop is selected only when the field
is absent. -/
theorem create_empty_business (uname : String) (uid : Nat) :
    MonkeyBusinessFactory.create ⟨some uname, some uid, some ""⟩ =
      .error (.unknownBusiness "") ∧
    ∀ body : CreateBody, ∀ m : Monkey,
      MonkeyBusinessFactory.create body = .ok m → m.business = .base →
      body.business = none := by
  constructor
  · rfl
  · intro body m hok hbase
    obtain ⟨u, n, b⟩ := body
    cases u with
    | none => exact absurd hok (by simp [MonkeyBusinessFactory.create])
    | some uval =>
      cases n with
      | none => exact absurd hok (by simp [MonkeyBusinessFactory.create])
      | some nval =>
        cases b with
        | none => rfl
        | some bval =>
          exfalso
          by_cases h1 : bval = "JupyterLoginLoop"
          · rw [MonkeyBusinessFactory.create] at hok
            simp [h1] at hok
            rw [← hok] at hbase
            simp at hbase
          · by_cases h2 : bval = "JupyterPythonLoop"
            · rw [MonkeyBusinessFactory.create] at hok
              simp [h1, h2] at hok
              rw [← hok] at hbase
              simp at hbase
            · rw [MonkeyBusinessFactory.create] at hok
              simp [h1, h2] at hok

/-- Witness for C9 at a concrete request. -/
theorem create_empty_business_witness :
    MonkeyBusinessFactory.create ⟨some "carol", some 2000, some ""⟩ =
      .error (.unknownBusiness "") :=
  (create_empty_business "carol" 2000).1

/-! Session protocol client (`mobu/jupyterclient.py`).  A `Response` is what
the code inspects of an aiohttp response: its status and its final URL after
any redirects.  A `Request` records what the client sends: method, URL,
whether redirects are followed (aiohttp default `true`; the provisioning POST
passes `allow_redirects=False`) and any per-request headers. -/

structure Response where
  status : Nat
  url : String
  deriving Repr, DecidableEq

inductive Method where
  | get
  | post
  | delete
  deriving Repr, DecidableEq

structure Request where
  method : Method
  url : String
  allowRedirects : Bool
  headers : List (String × String)
  deriving Repr, DecidableEq

/-- Boolean success of an `Except`-returning operation (a Python method that
returned normally instead of raising). -/
def ExceptOk {ε α : Type} : Except ε α → Bool
  | .ok _ => true
  | .error _ => false

/-- Client state built by `JupyterClient.__init__` (lines 33-49): the
session-wide headers and the cookie jar.  `xsrftoken` stands for the value
produced by `random.choices(ascii_uppercase + digits, k=16)`; it is a
parameter because the generation is random. -/
structure JupyterClient where
  username : String
  token : String
  xsrftoken : String
  jupyter_url : String
  headers : List (String × String)
  cookies : List (String × String)
  deriving Repr, DecidableEq

/-- Embedding of `JupyterClient.__init__`: `jupyter_url` is the environment
URL plus "/nb/", the headers carry the bearer token and the xsrf token, and
the cookie jar is seeded with the same xsrf token under `_xsrf`. -/
def JupyterClient.init (environment_url username token xsrftoken : String) :
    JupyterClient :=
  { username := username
    token := token
    xsrftoken := xsrftoken
    jupyter_url := environment_url ++ "/nb/"
    headers := [("Authorization", "Bearer " ++ token), ("x-xsrftoken", xsrftoken)]
    cookies := [("_xsrf", xsrftoken)] }

inductive OpName where
  | hubLogin
  | ensureLab
  | labLogin
  | isLabRunning
  | spawnLab
  | deleteLab
  | createKernel
  | runPython
  | dump
  deriving Repr, DecidableEq

/-- Cookie-jar update performed by aiohttp's `ClientSession.cookie_jar`
across a call: server-set cookies are added, overriding same-named ones. -/
def updateCookies (jar : List (String × String))
    (serverSet : List (String × String)) : List (String × String) :=
  serverSet ++ jar.filter (fun kv => ¬ serverSet.any (fun kv2 => kv2.1 = kv.1))

/-- State effect of one protocol operation on the client.  No method of
`JupyterClient` assigns any attribute after `__init__` — in particular none
touches `self.headers` or `self.xsrftoken` — so the only state change across
a call is the cookie jar accumulating server-set cookies. -/
def JupyterClient.afterOp (c : JupyterClient) (_op : OpName)
    (serverSet : List (String × String)) : JupyterClient :=
  { c with cookies := updateCookies c.cookies serverSet }

/-- C8: at construction the headers hold `Authorization: Bearer <token>` and
`x-xsrftoken: <xsrftoken>`, the cookie jar's `_xsrf` cookie holds the same
token value as the `x-xsrftoken` header, and no protocol operation replaces
the token or the headers. -/
theorem client_xsrf_invariant (env uname tok xs : String) (op : OpName)
    (serverSet : List (String × String)) :
    (JupyterClient.init env uname tok xs).headers.lookup "Authorization" =
      some ("Bearer " ++ tok) ∧
    (JupyterClient.init env uname tok xs).headers.lookup "x-xsrftoken" =
      some (JupyterClient.init env uname tok xs).xsrftoken ∧
    (JupyterClient.init env uname tok xs).cookies.lookup "_xsrf" =
      some (JupyterClient.init env uname tok xs).xsrftoken ∧
    ((JupyterClient.init env uname tok xs).afterOp op serverSet).headers =
      (JupyterClient.init env uname tok xs).headers ∧
    ((JupyterClient.init env uname tok xs).afterOp op serverSet).xsrftoken =
      (JupyterClient.init env uname tok xs).xsrftoken := by
  refine ⟨?_, ?_, rfl, rfl, rfl⟩
  · simp [JupyterClient.init, List.lookup]
  · simp [JupyterClient.init, List.lookup]

/-- Embedding of `hub_login` (lines 51-60): GET on `hub/login`; status other
than 200 raises, then a final URL different from `hub/home` raises. -/
def hub_login (jupyter_url : String) (r : Response) : Except String Unit :=
  if r.status ≠ 200 then
    .error ("Error " ++ toString r.status ++ " from " ++ r.url)
  else
    let home_url := jupyter_url ++ "hub/home"
    if r.url ≠ home_url then
      .error ("Redirected to " ++ r.url ++ " but expected " ++ home_url)
    else
      .ok ()

/-- C2: `hub_login` returns normally exactly when the response status is 200
and the final post-redirect URL equals the hub home URL; any other status or
landing URL raises. -/
theorem hub_login_ok_iff (jupyter_url : String) (r : Response) :
    ExceptOk (hub_login jupyter_url r) = true ↔
      (r.status = 200 ∧ r.url = jupyter_url ++ "hub/home") := by
  unfold hub_login ExceptOk
  constructor
  · intro h
    by_cases h1 : r.status = 200
    · by_cases h2 : r.url = jupyter_url ++ "hub/home"
      · exact ⟨h1, h2⟩
      · simp [h1, h2] at h
    · simp [h1] at h
  · intro ⟨h1, h2⟩
    simp [h1, h2]

/-- Embedding of `is_lab_running` (lines 77-89): GET on `hub`; a non-200
status is only written to the error log (the first component), never raised;
the result is `false` exactly when the final URL is the `hub/spawn` URL. -/
def is_lab_running (jupyter_url : String) (r : Response) :
    List String × Except String Bool :=
  let logs := if r.status ≠ 200 then
    ["Error " ++ toString r.status ++ " from " ++ r.url] else []
  let spawn_url := jupyter_url ++ "hub/spawn"
  if r.url = spawn_url then (logs, .ok false) else (logs, .ok true)

/-- C4: `is_lab_running` never raises; it returns `false` exactly when the
final URL equals the spawn URL and `true` for any other final URL, whatever
the status; a non-200 status only produces an error-log line. -/
theorem is_lab_running_spec (jupyter_url : String) (r : Response) :
    (is_lab_running jupyter_url r).2 =
      .ok (r.url != jupyter_url ++ "hub/spawn") ∧
    (is_lab_running jupyter_url r).1 =
      (if r.status ≠ 200 then
        ["Error " ++ toString r.status ++ " from " ++ r.url] else []) := by
  unfold is_lab_running
  by_cases h : r.url = jupyter_url ++ "hub/spawn" <;> simp [h]

/-- Embedding of `delete_lab` (lines 123-133): DELETE on the per-user server
resource with a `Referer` header of the hub home URL; a status outside
{200, 202, 204} raises. -/
def delete_lab (jupyter_url username : String) (r : Response) :
    Request × Except String Unit :=
  let headers := [("Referer", jupyter_url ++ "hub/home")]
  let server_url := jupyter_url ++ "hub/api/users/" ++ username ++ "/server"
  let req : Request := ⟨.delete, server_url, true, headers⟩
  if r.status ∈ ([200, 202, 204] : List Nat) then (req, .ok ())
  else (req, .error ("Error " ++ toString r.status ++ " from " ++ r.url))

/-- C7: `delete_lab` sends a DELETE to the per-user server resource carrying
a `Referer` header equal to the hub home URL, and returns normally exactly
when the status is one of 200, 202, 204. -/
theorem delete_lab_spec (jupyter_url username : String) (r : Response) :
    (delete_lab jupyter_url username r).1 =
      ⟨.delete, jupyter_url ++ "hub/api/users/" ++ username ++ "/server",
        true, [("Referer", jupyter_url ++ "hub/home")]⟩ ∧
    (ExceptOk (delete_lab jupyter_url username r).2 = true ↔
      (r.status = 200 ∨ r.status = 202 ∨ r.status = 204)) := by
  unfold delete_lab
  constructor
  · split <;> rfl
  · split
    next h =>
      simp [ExceptOk]
      simpa using h
    next h =>
      simp [ExceptOk]
      simpa using h

/-! Provisioning (`spawn_lab`, lines 91-121).  The observable behaviour is a
trace of events — requests issued and sleeps — plus an outcome.  The
environment supplies the response to the initial GET, the response to the
provisioning POST, and a finite prefix of the progress-poll responses; the
poll loop itself is unbounded, so exhausting the prefix yields `pending`. -/

inductive Event where
  | request (r : Request)
  | sleep (seconds : Nat)
  deriving Repr, DecidableEq

def spawnUrl (jupyter_url : String) : String := jupyter_url ++ "hub/spawn"

def userLabUrl (jupyter_url username : String) : String :=
  jupyter_url ++ "user/" ++ username ++ "/lab"

/-- Progress-poll request: a plain GET on the progress URL. -/
def pollReq (progress_url : String) : Request := ⟨.get, progress_url, true, []⟩

inductive SpawnResult where
  | failed (status : Nat) (msg : String)
  | spawned (polls : Nat)
  | pending
  deriving Repr, DecidableEq

/-- Embedding of the `while True` poll of `spawn_lab`: GET the progress URL;
if the final URL is the per-user lab URL, return (reporting how many polls
were made); otherwise sleep 15 and retry.  `none` means the supplied trace
ran out with the loop still going. -/
def spawn_poll (progress_url lab_url : String) :
    List Response → List Event × Option Nat
  | [] => ([], none)
  | r :: rest =>
    if r.url = lab_url then ([.request (pollReq progress_url)], some 1)
    else
      let p := spawn_poll progress_url lab_url rest
      (.request (pollReq progress_url) :: .sleep 15 :: p.1,
        p.2.map (fun n => n + 1))

/-- Embedding of `spawn_lab`: an extra GET on the spawn URL (DM-23864), then
the provisioning POST with `allow_redirects=False`; a non-302 status raises;
otherwise the POST response URL becomes the progress URL and the poll loop
runs.  `_rGet` is the response to the extra GET (its body is read and
discarded). -/
def spawn_lab (jupyter_url username : String) (_rGet rPost : Response)
    (pollResponses : List Response) : List Event × SpawnResult :=
  let spawn_url := spawnUrl jupyter_url
  let lab_url := userLabUrl jupyter_url username
  let evGet := Event.request ⟨.get, spawn_url, true, []⟩
  let evPost := Event.request ⟨.post, spawn_url, false, []⟩
  if rPost.status ≠ 302 then
    ([evGet, evPost],
      .failed rPost.status
        ("Error " ++ toString rPost.status ++ " from " ++ rPost.url))
  else
    let progress_url := rPost.url
    let p := spawn_poll progress_url lab_url pollResponses
    ([evGet, evPost] ++ p.1,
      match p.2 with
      | some n => .spawned n
      | none => .pending)

theorem spawn_poll_first_match (progress_url lab_url : String)
    (pre rest : List Response) (r : Response)
    (hpre : ∀ x ∈ pre, x.url ≠ lab_url) (hr : r.url = lab_url) :
    spawn_poll progress_url lab_url (pre ++ r :: rest) =
      ((List.replicate pre.length
          [Event.request (pollReq progress_url), Event.sleep 15]).flatten
        ++ [Event.request (pollReq progress_url)], some (pre.length + 1)) := by
  induction pre with
  | nil => simp [spawn_poll, hr]
  | cons x xs ih =>
    have hx : x.url ≠ lab_url := hpre x (by simp)
    have hxs : ∀ y ∈ xs, y.url ≠ lab_url := fun y hy => hpre y (by simp [hy])
    simp [spawn_poll, hx, ih hxs, List.replicate_succ]

theorem spawn_poll_no_match (progress_url lab_url : String)
    (ps : List Response) (h : ∀ x ∈ ps, x.url ≠ lab_url) :
    (spawn_poll progress_url lab_url ps).2 = none := by
  induction ps with
  | nil => rfl
  | cons x xs ih =>
    have hx : x.url ≠ lab_url := h x (by simp)
    have hxs : ∀ y ∈ xs, y.url ≠ lab_url := fun y hy => h y (by simp [hy])
    simp [spawn_poll, hx, ih hxs]

/-- C1: a non-302 provisioning POST makes `spawn_lab` raise at once with no
progress poll and no sleep; a 302 makes it poll the progress URL (the POST
response's URL), returning on the first poll whose final URL is the per-user
lab URL, with a 15-unit sleep after each unsuccessful poll; when no poll of
the supplied trace matches, the loop is still pending — it never raises and
never gives up, whatever the trace length. -/
theorem spawn_lab_spec (jupyter_url username : String) (rGet rPost : Response)
    (ps pre rest : List Response) (r : Response) :
    (rPost.status ≠ 302 →
      spawn_lab jupyter_url username rGet rPost ps =
        ([Event.request ⟨.get, spawnUrl jupyter_url, true, []⟩,
          Event.request ⟨.post, spawnUrl jupyter_url, false, []⟩],
         .failed rPost.status
           ("Error " ++ toString rPost.status ++ " from " ++ rPost.url))) ∧
    (rPost.status = 302 →
      (∀ x ∈ pre, x.url ≠ userLabUrl jupyter_url username) →
      r.url = userLabUrl jupyter_url username →
      spawn_lab jupyter_url username rGet rPost (pre ++ r :: rest) =
        ([Event.request ⟨.get, spawnUrl jupyter_url, true, []⟩,
          Event.request ⟨.post, spawnUrl jupyter_url, false, []⟩] ++
          ((List.replicate pre.length
              [Event.request (pollReq rPost.url), Event.sleep 15]).flatten
            ++ [Event.request (pollReq rPost.url)]),
         .spawned (pre.length + 1))) ∧
    (rPost.status = 302 →
      (∀ x ∈ ps, x.url ≠ userLabUrl jupyter_url username) →
      (spawn_lab jupyter_url username rGet rPost ps).2 = .pending) := by
  refine ⟨?_, ?_, ?_⟩
  · intro h
    simp [spawn_lab, h]
  · intro h302 hpre hr
    simp [spawn_lab, h302,
      spawn_poll_first_match rPost.url (userLabUrl jupyter_url username)
        pre rest r hpre hr]
  · intro h302 hnone
    simp [spawn_lab, h302,
      spawn_poll_no_match rPost.url (userLabUrl jupyter_url username) ps hnone]

/-- Witness for C1 at concrete traces: a 500 POST fails with no poll; with a
302 POST the lab appears on the second poll, after one poll-sleep-poll
sequence; a trace with no matching poll leaves the loop pending. -/
theorem spawn_lab_spec_witness :
    spawn_lab "https://x/nb/" "u" ⟨200, "https://x/nb/hub/spawn"⟩
        ⟨500, "https://x/nb/hub/spawn"⟩ [] =
      ([Event.request ⟨.get, "https://x/nb/hub/spawn", true, []⟩,
        Event.request ⟨.post, "https://x/nb/hub/spawn", false, []⟩],
       .failed 500 "Error 500 from https://x/nb/hub/spawn") ∧
    spawn_lab "https://x/nb/" "u" ⟨200, "https://x/nb/hub/spawn"⟩
        ⟨302, "https://x/nb/prog"⟩
        ([⟨200, "https://x/nb/prog"⟩] ++
          ⟨200, "https://x/nb/user/u/lab"⟩ :: []) =
      ([Event.request ⟨.get, "https://x/nb/hub/spawn", true, []⟩,
        Event.request ⟨.post, "https://x/nb/hub/spawn", false, []⟩] ++
        ((List.replicate 1
            [Event.request (pollReq "https://x/nb/prog"), Event.sleep 15]).flatten
          ++ [Event.request (pollReq "https://x/nb/prog")]),
       .spawned 2) ∧
    (spawn_lab "https://x/nb/" "u" ⟨200, "https://x/nb/hub/spawn"⟩
        ⟨302, "https://x/nb/prog"⟩ [⟨200, "https://x/nb/prog"⟩]).2 =
      .pending := by
  refine ⟨?_, ?_, ?_⟩
  · exact (spawn_lab_spec "https://x/nb/" "u" ⟨200, "https://x/nb/hub/spawn"⟩
      ⟨500, "https://x/nb/hub/spawn"⟩ [] [] [] ⟨0, ""⟩).1 (by decide)
  · exact (spawn_lab_spec "https://x/nb/" "u" ⟨200, "https://x/nb/hub/spawn"⟩
      ⟨302, "https://x/nb/prog"⟩ [] [⟨200, "https://x/nb/prog"⟩] []
      ⟨200, "https://x/nb/user/u/lab"⟩).2.1 rfl (by decide) (by decide)
  · exact (spawn_lab_spec "https://x/nb/" "u" ⟨200, "https://x/nb/hub/spawn"⟩
      ⟨302, "https://x/nb/prog"⟩ [⟨200, "https://x/nb/prog"⟩] [] []
      ⟨0, ""⟩).2.2 rfl (by decide)

/-- C10: every invocation of `spawn_lab` begins with the extra GET on the
spawn URL (DM-23864), whatever the POST outcome — in particular also when the
POST then fails with a non-302 status. -/
theorem spawn_lab_initial_get (jupyter_url username : String)
    (rGet rPost : Response) (ps : List Response) :
    ((spawn_lab jupyter_url username rGet rPost ps).1).head? =
      some (Event.request ⟨.get, spawnUrl jupyter_url, true, []⟩) := by
  unfold spawn_lab
  split <;> rfl

/-! Remote execution (`run_python`, lines 148-189): after sending the
execute-request with a fresh `msg_id`, the receive loop inspects each
incoming message: an error-typed message raises carrying the whole message;
a stream message whose `parent_header.msg_id` equals the request id returns
its text payload; everything else is skipped and the loop continues. -/

structure KernelMessage where
  msg_type : String
  parent_msg_id : String
  text : String
  deriving Repr, DecidableEq

inductive RunPythonResult where
  | error (m : KernelMessage)
  | ok (text : String)
  | pending
  deriving Repr, DecidableEq

/-- Embedding of the receive loop of `run_python`: the messages arrive in
order; `pending` means the supplied trace ran out while the loop would still
be blocked waiting. -/
def run_python_receive (msg_id : String) :
    List KernelMessage → RunPythonResult
  | [] => .pending
  | m :: rest =>
    if m.msg_type = "error" then .error m
    else if m.msg_type = "stream" ∧ msg_id = m.parent_msg_id then .ok m.text
    else run_python_receive msg_id rest

/-- C3: an error-typed message makes the receive loop raise carrying the
server payload; a stream message with a non-matching parent id is skipped
and the loop continues on the remaining messages; a stream message whose
parent id matches the request id returns its text payload exactly. -/
theorem run_python_receive_spec (msg_id : String) (m : KernelMessage)
    (rest : List KernelMessage) :
    (m.msg_type = "error" →
      run_python_receive msg_id (m :: rest) = .error m) ∧
    (m.msg_type = "stream" → m.parent_msg_id ≠ msg_id →
      run_python_receive msg_id (m :: rest) = run_python_receive msg_id rest) ∧
    (m.msg_type = "stream" → m.parent_msg_id = msg_id →
      run_python_receive msg_id (m :: rest) = .ok m.text) := by
  refine ⟨?_, ?_, ?_⟩
  · intro h
    simp [run_python_receive, h]
  · intro hs hne
    simp [run_python_receive, hs, Ne.symm hne]
  · intro hs he
    simp [run_python_receive, hs, he]

/-- Witness for C3 at concrete messages. -/
theorem run_python_receive_spec_witness :
    run_python_receive "id1" [⟨"error", "id1", "boom"⟩] =
      .error ⟨"error", "id1", "boom"⟩ ∧
    run_python_receive "id1"
        (⟨"stream", "other", "skip"⟩ :: [⟨"stream", "id1", "out"⟩]) =
      run_python_receive "id1" [⟨"stream", "id1", "out"⟩] ∧
    run_python_receive "id1" [⟨"stream", "id1", "out"⟩] = .ok "out" := by
  refine ⟨?_, ?_, ?_⟩
  · exact (run_python_receive_spec "id1" ⟨"error", "id1", "boom"⟩ []).1 rfl
  · exact (run_python_receive_spec "id1" ⟨"stream", "other", "skip"⟩
      [⟨"stream", "id1", "out"⟩]).2.1 rfl (by decide)
  · exact (run_python_receive_spec "id1" ⟨"stream", "id1", "out"⟩ []).2.2 rfl rfl
